import Mathlib

/-!
Shallow embedding of the activities sign-up client (src/src/static/app.js).

The client holds three DOM surfaces: the activities list (`activitiesList`),
the signup form's activity selection control (`activitySelect`), and the
transient status message element (`messageDiv`).  We model those as explicit
state.  Network requests (`fetch` + `response.json()`) are modelled as input
values: a network-level failure is `Except.error`, a completed response
carries its HTTP `ok` flag and a body whose JSON parse may itself fail.
Timers (`setTimeout`) are modelled as absolute deadlines in a simulated
millisecond clock.
-/

/-- One activity's details, as delivered by `GET /activities`
(`{description, schedule, max_participants, participants}`). -/
structure Details where
  description : String
  schedule : String
  max_participants : Int
  participants : List String
deriving DecidableEq

/-- A rendered participant row: the email text plus the click binding of the
delete button, which invokes `unregisterParticipant(name, participant)`. -/
structure ParticipantRow where
  email : String
  deleteBinding : String × String
deriving DecidableEq

/-- The participants section of an activity card: either the
"no participants" placeholder paragraph or a list of rows. -/
inductive ParticipantsView where
  | placeholder (text : String)
  | rows (items : List ParticipantRow)
deriving DecidableEq

/-- One rendered activity card (`activityCard.innerHTML` plus the appended
participants section). -/
structure ActivityCard where
  header : String
  description : String
  scheduleText : String
  availabilityText : String
  participantsView : ParticipantsView
deriving DecidableEq

/-- The content of the `activitiesList` element: either rendered cards or the
static failure paragraph written by the catch branch. -/
inductive ListSurface where
  | cards (cs : List ActivityCard)
  | failure (text : String)
deriving DecidableEq

/-- The status message element: text, css class (`success`/`error`), whether
the `hidden` class is present, and the pending `setTimeout` deadlines
(absolute times, ms).  The source never cancels a pending timer. -/
structure MsgBox where
  text : String
  kind : String
  hidden : Bool
  timers : List Nat
deriving DecidableEq

/-- The whole mutable DOM state the script touches. -/
structure DomState where
  surface : ListSurface
  selectOptions : List String
  message : MsgBox
deriving DecidableEq

/-- Parsed JSON body of a mutating response.  `none` models an absent field
(JS `undefined`). -/
structure Body where
  message : Option String
  detail : Option String

/-- A completed HTTP response: the `ok` status flag and the result of
`await response.json()` (`Except.error` = body was not valid JSON). -/
structure ServerResponse where
  ok : Bool
  body : Except Unit Body

/-- Result of `await fetch(...)`: `Except.error` = network failure. -/
abbrev FetchResult := Except Unit ServerResponse

/-- JS disjunction `a || b` on a string field that may be absent: `||` falls
through on `undefined` and on the empty string (the only falsy string). -/
def jsOr (v : Option String) (fallback : String) : String :=
  match v with
  | none => fallback
  | some s => if s = "" then fallback else s

/-- Assigning a possibly-`undefined` value to `textContent`: JS stringifies
`undefined` to "undefined". -/
def jsText (v : Option String) : String :=
  match v with
  | none => "undefined"
  | some s => s

/-- Characters that `encodeURIComponent` leaves unescaped:
`A-Z a-z 0-9 - _ . ! ~ * ' ( )`. -/
def isURIUnescaped (c : Char) : Bool :=
  c.isAlpha || c.isDigit || ['-', '_', '.', '!', '~', '*', '\'', '(', ')'].contains c

/-- UTF-8 encoding of one character as byte values. -/
def utf8Bytes (c : Char) : List Nat :=
  let n := c.toNat
  if n < 128 then [n]
  else if n < 2048 then [192 + n / 64, 128 + n % 64]
  else if n < 65536 then [224 + n / 4096, 128 + (n / 64) % 64, 128 + n % 64]
  else [240 + n / 262144, 128 + (n / 4096) % 64, 128 + (n / 64) % 64, 128 + n % 64]

/-- Uppercase hex digit. -/
def hexDigit (n : Nat) : Char :=
  if n < 10 then Char.ofNat (48 + n) else Char.ofNat (55 + n)

/-- Percent escape of one byte value, uppercase hex. -/
def percentByte (b : Nat) : String :=
  String.mk ['%', hexDigit (b / 16), hexDigit (b % 16)]

/-- Model of JS `encodeURIComponent`: unreserved characters kept, every other
character percent-encoded byte by byte of its UTF-8 form. -/
def encodeURIComponent (s : String) : String :=
  String.join (s.toList.map (fun c =>
    if isURIUnescaped c then String.singleton c
    else String.join ((utf8Bytes c).map percentByte)))

/-- Model of `showMessage(text, type)`: sets the text and css class, removes the
`hidden` class, and schedules `classList.add("hidden")` 5000 ms later.
The pending timers of earlier calls are NOT cancelled. -/
def showMessage (text kind : String) (now : Nat) (m : MsgBox) : MsgBox :=
  { text := text, kind := kind, hidden := false, timers := m.timers ++ [now + 5000] }

/-- Fire every pending `setTimeout` callback whose deadline has passed:
each one adds the `hidden` class. -/
def fireDue (now : Nat) (m : MsgBox) : MsgBox :=
  { m with
    hidden := m.hidden || m.timers.any (fun d => d ≤ now)
    timers := m.timers.filter (fun d => now < d) }

/-- Run a chronological list of `showMessage` calls `(time, text, kind)`,
firing due timers before each call. -/
def runShows : List (Nat × String × String) → MsgBox → MsgBox
  | [], m => m
  | (t, text, kind) :: rest, m => runShows rest (showMessage text kind t (fireDue t m))

/-- The message element as observed at time `now`, after the given calls. -/
def observeAt (events : List (Nat × String × String)) (now : Nat) (m : MsgBox) : MsgBox :=
  fireDue now (runShows events m)

/-- The initial message element: empty and hidden, no pending timer. -/
def initialMsg : MsgBox :=
  { text := "", kind := "", hidden := true, timers := [] }

/-- Render one activity card, translating the loop body of
`fetchActivities`: `spotsLeft = details.max_participants -
details.participants.length`, the innerHTML template, and the participants
section (rows with delete-button bindings, or the placeholder). -/
def renderActivity (name : String) (details : Details) : ActivityCard :=
  let spotsLeft : Int := details.max_participants - (details.participants.length : Int)
  { header := name
    description := details.description
    scheduleText := details.schedule
    availabilityText := toString spotsLeft ++ " spots left"
    participantsView :=
      if details.participants.length > 0 then
        ParticipantsView.rows (details.participants.map
          (fun p => { email := p, deleteBinding := (name, p) }))
      else
        ParticipantsView.placeholder "No participants yet - be the first to sign up!" }

/-- Observable effects of one `fetchActivities` run: the network requests it
issues (method, url) and whether `console.error` was called. -/
structure FetchEffects where
  requests : List (String × String)
  logged : Bool
deriving DecidableEq

/-- Model of `fetchActivities()`: one `GET /activities`; on success the list surface
is rebuilt from scratch (`innerHTML = ""` then one card per activity, in
response key order) and one option per activity name is APPENDED to the
selection control, which is never cleared.  Any network or JSON-parse
failure replaces the list surface with a static failure paragraph and logs;
there is no retry.  `resp` is the combined outcome of `fetch` + `json()`:
`Except.ok` carries the activity map as an association list in key order. -/
def fetchActivities (resp : Except Unit (List (String × Details))) (st : DomState) :
    DomState × FetchEffects :=
  match resp with
  | Except.error _ =>
    ({ st with surface := ListSurface.failure "Failed to load activities. Please try again later." },
     { requests := [("GET", "/activities")], logged := true })
  | Except.ok acts =>
    ({ st with
        surface := ListSurface.cards (acts.map (fun p => renderActivity p.1 p.2))
        selectOptions := st.selectOptions ++ acts.map Prod.fst },
     { requests := [("GET", "/activities")], logged := false })

/-- Observable effects of one mutating handler run: the request it issued,
the `showMessage` call it made, whether the form was reset, whether
`fetchActivities()` was invoked, and whether `console.error` was called. -/
structure MutationOutcome where
  request : String × String
  shownMessage : Option (String × String)
  formReset : Bool
  fetchTriggered : Bool
  logged : Bool
deriving DecidableEq

/-- The URL built by `unregisterParticipant`. -/
def unregisterURL (activityName email : String) : String :=
  "/activities/" ++ encodeURIComponent activityName ++ "/unregister?email="
    ++ encodeURIComponent email

/-- The URL built by the signup form handler. -/
def signupURL (activity email : String) : String :=
  "/activities/" ++ encodeURIComponent activity ++ "/signup?email="
    ++ encodeURIComponent email

/-- Model of `unregisterParticipant(activityName, email)`: DELETE to the encoded URL;
body parsed as JSON before the status check.  `response.ok` branch calls
`fetchActivities()` (recorded as a flag: the refetch is asynchronous) then
shows `result.message` as success; otherwise shows
`result.detail || "An error occurred"` as error.  Network or parse failure
lands in catch: generic message, log, no refetch. -/
def unregisterParticipant (activityName email : String) (resp : FetchResult)
    (now : Nat) (st : DomState) : DomState × MutationOutcome :=
  let req := ("DELETE", unregisterURL activityName email)
  let catchBranch : DomState × MutationOutcome :=
    ({ st with message := showMessage "Failed to unregister. Please try again." "error" now st.message },
     { request := req
       shownMessage := some ("Failed to unregister. Please try again.", "error")
       formReset := false, fetchTriggered := false, logged := true })
  match resp with
  | Except.error _ => catchBranch
  | Except.ok r =>
    match r.body with
    | Except.error _ => catchBranch
    | Except.ok result =>
      if r.ok then
        ({ st with message := showMessage (jsText result.message) "success" now st.message },
         { request := req
           shownMessage := some (jsText result.message, "success")
           formReset := false, fetchTriggered := true, logged := false })
      else
        ({ st with message := showMessage (jsOr result.detail "An error occurred") "error" now st.message },
         { request := req
           shownMessage := some (jsOr result.detail "An error occurred", "error")
           formReset := false, fetchTriggered := false, logged := false })

/-- The signup form submit handler: POST to the encoded URL built from the
form's `email` and `activity` fields; body parsed before the status check.
`response.ok` branch shows `result.message` as success, resets the form,
and invokes `fetchActivities()`; otherwise shows
`result.detail || "An error occurred"` as error.  Network or parse failure
lands in catch: generic message, log, no refetch, no reset. -/
def signupSubmit (email activity : String) (resp : FetchResult)
    (now : Nat) (st : DomState) : DomState × MutationOutcome :=
  let req := ("POST", signupURL activity email)
  let catchBranch : DomState × MutationOutcome :=
    ({ st with message := showMessage "Failed to sign up. Please try again." "error" now st.message },
     { request := req
       shownMessage := some ("Failed to sign up. Please try again.", "error")
       formReset := false, fetchTriggered := false, logged := true })
  match resp with
  | Except.error _ => catchBranch
  | Except.ok r =>
    match r.body with
    | Except.error _ => catchBranch
    | Except.ok result =>
      if r.ok then
        ({ st with message := showMessage (jsText result.message) "success" now st.message },
         { request := req
           shownMessage := some (jsText result.message, "success")
           formReset := true, fetchTriggered := true, logged := false })
      else
        ({ st with message := showMessage (jsOr result.detail "An error occurred") "error" now st.message },
         { request := req
           shownMessage := some (jsOr result.detail "An error occurred", "error")
           formReset := false, fetchTriggered := false, logged := false })

/-- A fresh DOM state ("loading" surface cleared to no cards, empty select,
hidden message), used to instantiate theorems at concrete inputs. -/
def initialDom : DomState :=
  { surface := ListSurface.cards [], selectOptions := [], message := initialMsg }

/-- Demo activity used to instantiate the theorems at concrete inputs
(the spec's Chess Club scenario: capacity 10, one participant). -/
def chessDemo : Details :=
  { description := "d", schedule := "Mon 3pm", max_participants := 10, participants := ["a@x.com"] }

/-- Claim C1: for every activity rendered by fetchActivities from a fetched
activity map, the displayed spots-left value equals max_participants minus
the length of that activity's participants sequence — the surface holds one
card per activity and each card's availability text displays exactly
`max_participants - participants.length` spots left. -/
theorem C1_spots_left_displayed (acts : List (String × Details)) (st : DomState)
    (i : Nat) (h : i < acts.length) :
    (fetchActivities (Except.ok acts) st).1.surface =
      ListSurface.cards (acts.map (fun p => renderActivity p.1 p.2)) ∧
    (renderActivity (acts.get ⟨i, h⟩).1 (acts.get ⟨i, h⟩).2).availabilityText =
      toString ((acts.get ⟨i, h⟩).2.max_participants -
        ((acts.get ⟨i, h⟩).2.participants.length : Int)) ++ " spots left" :=
  ⟨rfl, rfl⟩

/-- Witness for C1: the Chess Club scenario (capacity 10, one participant)
renders "9 spots left". -/
theorem C1_spots_left_witness :
    (fetchActivities (Except.ok [("Chess Club", chessDemo)]) initialDom).1.surface =
      ListSurface.cards [renderActivity "Chess Club" chessDemo] ∧
    (renderActivity "Chess Club" chessDemo).availabilityText = "9 spots left" := by
  have h := C1_spots_left_displayed [("Chess Club", chessDemo)] initialDom 0 (by decide)
  exact ⟨h.1, h.2.trans (by decide)⟩

/-- Counterexample to claim C2 as stated: when the body contains the string
field detail = "" (a string X, as the claim allows), the handler displays
the fallback "An error occurred", not X, because JS `||` treats the empty
string as falsy. -/
theorem C2_detail_empty_counterexample :
    (unregisterParticipant "Chess Club" "a@x.com"
        (Except.ok { ok := false, body := Except.ok { message := none, detail := some "" } })
        0 initialDom).2.shownMessage = some ("An error occurred", "error") ∧
    ¬ ("An error occurred" = "") :=
  ⟨by decide, by decide⟩

/-- Claim C2 amended: for every register or unregister call answered non-2xx
with a parsed JSON body, if the detail field is a NON-EMPTY string X the
displayed message equals exactly X; if detail is absent — or the empty
string, which JS `||` treats like absent — the fallback "An error occurred"
is displayed. -/
theorem C2_detail_message_amended (activityName email : String) (b : Body)
    (now : Nat) (st : DomState) :
    (∀ X : String, b.detail = some X → X ≠ "" →
      (unregisterParticipant activityName email
          (Except.ok { ok := false, body := Except.ok b }) now st).2.shownMessage =
        some (X, "error") ∧
      (signupSubmit email activityName
          (Except.ok { ok := false, body := Except.ok b }) now st).2.shownMessage =
        some (X, "error")) ∧
    ((b.detail = none ∨ b.detail = some "") →
      (unregisterParticipant activityName email
          (Except.ok { ok := false, body := Except.ok b }) now st).2.shownMessage =
        some ("An error occurred", "error") ∧
      (signupSubmit email activityName
          (Except.ok { ok := false, body := Except.ok b }) now st).2.shownMessage =
        some ("An error occurred", "error")) := by
  constructor
  · intro X hX hne
    constructor <;> simp [unregisterParticipant, signupSubmit, jsOr, hX, hne]
  · rintro (hX | hX) <;> constructor <;> simp [unregisterParticipant, signupSubmit, jsOr, hX]

/-- Witness for the amended C2: detail "Participant not found" is shown
verbatim. -/
theorem C2_detail_message_witness :
    (unregisterParticipant "Chess Club" "a@x.com"
        (Except.ok { ok := false, body := Except.ok { message := none, detail := some "Participant not found" } })
        0 initialDom).2.shownMessage = some ("Participant not found", "error") :=
  ((C2_detail_message_amended "Chess Club" "a@x.com"
      { message := none, detail := some "Participant not found" } 0 initialDom).1
    "Participant not found" rfl (by decide)).1

/-- Claim C3: for every signup form submission answered 2xx with body
message m, the handler shows m verbatim as a success message (it is the
visible message text afterwards), resets the form, and triggers
fetchActivities to re-synchronize. -/
theorem C3_signup_success_flow (email activity m : String) (b : Body)
    (now : Nat) (st : DomState) (hm : b.message = some m) :
    ((signupSubmit email activity (Except.ok { ok := true, body := Except.ok b }) now st).2.shownMessage =
      some (m, "success")) ∧
    ((signupSubmit email activity (Except.ok { ok := true, body := Except.ok b }) now st).2.formReset = true) ∧
    ((signupSubmit email activity (Except.ok { ok := true, body := Except.ok b }) now st).2.fetchTriggered = true) ∧
    ((signupSubmit email activity (Except.ok { ok := true, body := Except.ok b }) now st).1.message.text = m) ∧
    ((signupSubmit email activity (Except.ok { ok := true, body := Except.ok b }) now st).1.message.hidden = false) := by
  simp [signupSubmit, jsText, hm, showMessage]

/-- Witness for C3: the spec's scenario — signup for Chess Club and b@x.com
returning 200 with message "Signed up b@x.com". -/
theorem C3_signup_success_witness :
    ((signupSubmit "b@x.com" "Chess Club"
        (Except.ok { ok := true, body := Except.ok { message := some "Signed up b@x.com", detail := none } })
        0 initialDom).2.shownMessage = some ("Signed up b@x.com", "success")) ∧
    ((signupSubmit "b@x.com" "Chess Club"
        (Except.ok { ok := true, body := Except.ok { message := some "Signed up b@x.com", detail := none } })
        0 initialDom).2.formReset = true) ∧
    ((signupSubmit "b@x.com" "Chess Club"
        (Except.ok { ok := true, body := Except.ok { message := some "Signed up b@x.com", detail := none } })
        0 initialDom).2.fetchTriggered = true) ∧
    ((signupSubmit "b@x.com" "Chess Club"
        (Except.ok { ok := true, body := Except.ok { message := some "Signed up b@x.com", detail := none } })
        0 initialDom).1.message.text = "Signed up b@x.com") ∧
    ((signupSubmit "b@x.com" "Chess Club"
        (Except.ok { ok := true, body := Except.ok { message := some "Signed up b@x.com", detail := none } })
        0 initialDom).1.message.hidden = false) :=
  C3_signup_success_flow "b@x.com" "Chess Club" "Signed up b@x.com"
    { message := some "Signed up b@x.com", detail := none } 0 initialDom rfl

/-- Claim C4: for every unregisterParticipant call answered non-2xx, the
error message (detail or fallback) is shown, fetchActivities is NOT
invoked, and the rendered list and selection options are left unchanged;
moreover only the success path (response ok with a parsed body) ever
triggers a refresh. -/
theorem C4_error_no_refetch (activityName email : String) (b : Body)
    (now : Nat) (st : DomState) :
    ((unregisterParticipant activityName email
        (Except.ok { ok := false, body := Except.ok b }) now st).2.shownMessage =
      some (jsOr b.detail "An error occurred", "error")) ∧
    ((unregisterParticipant activityName email
        (Except.ok { ok := false, body := Except.ok b }) now st).2.fetchTriggered = false) ∧
    ((unregisterParticipant activityName email
        (Except.ok { ok := false, body := Except.ok b }) now st).1.surface = st.surface) ∧
    ((unregisterParticipant activityName email
        (Except.ok { ok := false, body := Except.ok b }) now st).1.selectOptions = st.selectOptions) ∧
    (∀ resp : FetchResult,
      (unregisterParticipant activityName email resp now st).2.fetchTriggered = true →
      ∃ r b2, resp = Except.ok r ∧ r.body = Except.ok b2 ∧ r.ok = true) := by
  refine ⟨rfl, rfl, rfl, rfl, ?_⟩
  intro resp h
  match resp with
  | Except.error e => simp [unregisterParticipant] at h
  | Except.ok ⟨rok, Except.error e⟩ => simp [unregisterParticipant] at h
  | Except.ok ⟨rok, Except.ok b2⟩ =>
    cases rok with
    | false => simp [unregisterParticipant] at h
    | true => exact ⟨⟨true, Except.ok b2⟩, b2, rfl, rfl, rfl⟩

/-- Witness for C4: the 400 "Participant not found" scenario leaves the
surface untouched and does not refetch; a successful response does satisfy
the refresh condition. -/
theorem C4_error_no_refetch_witness :
    ((unregisterParticipant "Chess Club" "a@x.com"
        (Except.ok { ok := false, body := Except.ok { message := none, detail := some "Participant not found" } })
        0 initialDom).2.fetchTriggered = false) ∧
    ((unregisterParticipant "Chess Club" "a@x.com"
        (Except.ok { ok := false, body := Except.ok { message := none, detail := some "Participant not found" } })
        0 initialDom).1.surface = initialDom.surface) ∧
    (∃ r b2,
      (Except.ok { ok := true, body := Except.ok { message := some "Unregistered a@x.com", detail := none } } : FetchResult) =
        Except.ok r ∧ r.body = Except.ok b2 ∧ r.ok = true) := by
  have h := C4_error_no_refetch "Chess Club" "a@x.com"
    { message := none, detail := some "Participant not found" } 0 initialDom
  exact ⟨h.2.1, h.2.2.1, h.2.2.2.2 _ rfl⟩

/-- Counterexample to claim C5 as stated: showing "first" at t=0 and the
superseding "second" at t=3000, the message surface is hidden already at
t=5000 — the first call's timer is never cancelled — although the
superseding message's own 5000 ms would only elapse at t=8000. -/
theorem C5_supersede_counterexample :
    (observeAt [(0, "first", "success"), (3000, "second", "success")] 5000 initialMsg).hidden = true ∧
    (observeAt [(0, "first", "success"), (3000, "second", "success")] 5000 initialMsg).text = "second" ∧
    5000 < 3000 + 5000 :=
  ⟨by decide, by decide, by decide⟩

/-- Claim C5 amended: a shown message becomes visible immediately, replacing
the previous one, and a message not superseded is hidden exactly 5000 ms
after being shown; but hide timers are never cancelled, so a message shown
at t2 that supersedes one shown at t1 (within its 5000 ms window) is hidden
as soon as the EARLIER timer fires, i.e. at t1 + 5000, not after its own
5000 ms. -/
theorem C5_message_timing_amended (t t1 t2 now : Nat) (x k x1 k1 x2 k2 : String)
    (m : MsgBox) (hint : t2 < t1 + 5000) (hel : t1 + 5000 ≤ now) :
    ((showMessage x k t m).text = x ∧ (showMessage x k t m).kind = k ∧
      (showMessage x k t m).hidden = false) ∧
    ((observeAt [(t, x, k)] now initialMsg).hidden = true ↔ t + 5000 ≤ now) ∧
    ((observeAt [(t1, x1, k1), (t2, x2, k2)] now initialMsg).hidden = true ∧
      (observeAt [(t1, x1, k1), (t2, x2, k2)] now initialMsg).text = x2) := by
  refine ⟨⟨rfl, rfl, rfl⟩, ?_, ?_, ?_⟩
  · simp [observeAt, runShows, showMessage, fireDue, initialMsg]
  · simp [observeAt, runShows, showMessage, fireDue, initialMsg, hint, hel,
      Nat.not_le.mpr hint]
  · simp [observeAt, runShows, showMessage, fireDue, initialMsg]

/-- Witness for the amended C5: a solo show at t=0 observed at t=5000 is
hidden; the t=0 / t=3000 pair observed at t=5000 is hidden with the second
text displayed. -/
theorem C5_message_timing_witness :
    ((showMessage "solo" "success" 0 initialMsg).text = "solo" ∧
      (showMessage "solo" "success" 0 initialMsg).kind = "success" ∧
      (showMessage "solo" "success" 0 initialMsg).hidden = false) ∧
    ((observeAt [(0, "solo", "success")] 5000 initialMsg).hidden = true ↔ 0 + 5000 ≤ 5000) ∧
    ((observeAt [(0, "first", "success"), (3000, "second", "success")] 5000 initialMsg).hidden = true ∧
      (observeAt [(0, "first", "success"), (3000, "second", "success")] 5000 initialMsg).text = "second") :=
  C5_message_timing_amended 0 0 3000 5000 "solo" "success" "first" "success"
    "second" "success" initialMsg (by decide) (by decide)

/-- Claim C6: both mutating calls percent-encode the activity name path
segment and the email query parameter and use exactly
DELETE /activities/name/unregister?email=email and
POST /activities/name/signup?email=email; the encoding is the real
percent-encoding (space becomes %20, plus %2B, at-sign %40). -/
theorem C6_request_shapes (activityName email : String) (resp : FetchResult)
    (now : Nat) (st : DomState) :
    ((unregisterParticipant activityName email resp now st).2.request =
      ("DELETE", "/activities/" ++ encodeURIComponent activityName ++ "/unregister?email="
        ++ encodeURIComponent email)) ∧
    ((signupSubmit email activityName resp now st).2.request =
      ("POST", "/activities/" ++ encodeURIComponent activityName ++ "/signup?email="
        ++ encodeURIComponent email)) ∧
    encodeURIComponent "Chess Club" = "Chess%20Club" ∧
    encodeURIComponent "a+b@x.com" = "a%2Bb%40x.com" := by
  refine ⟨?_, ?_, by decide, by decide⟩ <;>
  · match resp with
    | Except.error e => rfl
    | Except.ok ⟨rok, Except.error e⟩ => rfl
    | Except.ok ⟨rok, Except.ok b⟩ => cases rok <;> rfl

/-- Claim C7: every fetchActivities run issues exactly one GET /activities
request (no retry), and on network/parse failure the whole list surface is
replaced with the static failure message (no stale cards remain) and the
diagnostic is logged; the run is a total function — the failure does not
propagate. -/
theorem C7_fetch_failure_handling (resp : Except Unit (List (String × Details)))
    (st : DomState) :
    ((fetchActivities resp st).2.requests = [("GET", "/activities")]) ∧
    (resp = Except.error () →
      (fetchActivities resp st).1.surface =
        ListSurface.failure "Failed to load activities. Please try again later." ∧
      (fetchActivities resp st).2.logged = true) := by
  rcases resp with e | acts
  · exact ⟨rfl, fun _ => ⟨rfl, rfl⟩⟩
  · exact ⟨rfl, fun h => Except.noConfusion h⟩

/-- Witness for C7: a failing fetch from the initial state. -/
theorem C7_fetch_failure_witness :
    (fetchActivities (Except.error ()) initialDom).2.requests = [("GET", "/activities")] ∧
    (fetchActivities (Except.error ()) initialDom).1.surface =
      ListSurface.failure "Failed to load activities. Please try again later." ∧
    (fetchActivities (Except.error ()) initialDom).2.logged = true := by
  have h := C7_fetch_failure_handling (Except.error ()) initialDom
  exact ⟨h.1, h.2 rfl⟩

/-- Claim C8: an activity with an empty participants sequence renders the
placeholder message instead of a list; a non-empty one renders one row per
participant holding the email and an unregister binding to
(activityName, participantEmail). -/
theorem C8_participants_rendering (name : String) (d : Details) :
    (d.participants = [] →
      (renderActivity name d).participantsView =
        ParticipantsView.placeholder "No participants yet - be the first to sign up!") ∧
    (d.participants ≠ [] →
      (renderActivity name d).participantsView =
        ParticipantsView.rows (d.participants.map
          (fun p => { email := p, deleteBinding := (name, p) }))) := by
  constructor
  · intro h; simp [renderActivity, h]
  · intro h
    have hl : 0 < d.participants.length := List.length_pos.mpr h
    simp [renderActivity, hl]

/-- Witness for C8: the Chess Club demo renders one row for a@x.com bound to
("Chess Club", "a@x.com"). -/
theorem C8_participants_witness :
    (renderActivity "Chess Club" chessDemo).participantsView =
      ParticipantsView.rows [{ email := "a@x.com", deleteBinding := ("Chess Club", "a@x.com") }] := by
  have h := (C8_participants_rendering "Chess Club" chessDemo).2 (by decide)
  exact h.trans (by decide)

/-- Counterexample to claim C9 as stated: two successful fetches of the same
one-activity map leave TWO options for that activity in the selection
control — the source appends options without ever clearing them — so the
control does not contain exactly one option per activity. -/
theorem C9_option_duplication_counterexample :
    ((fetchActivities (Except.ok [("Chess Club", chessDemo)])
        (fetchActivities (Except.ok [("Chess Club", chessDemo)]) initialDom).1).1.selectOptions =
      ["Chess Club", "Chess Club"]) ∧
    ¬ ((fetchActivities (Except.ok [("Chess Club", chessDemo)])
        (fetchActivities (Except.ok [("Chess Club", chessDemo)]) initialDom).1).1.selectOptions.length = 1) :=
  ⟨by decide, by decide⟩

/-- Claim C9 amended: every successful fetchActivities call fully replaces
the prior rendered activity-card content, but it APPENDS one option per
activity to the selection control without clearing the prior ones, so
repeated fetches of the same map accumulate duplicate options. -/
theorem C9_refresh_amended (acts : List (String × Details)) (st : DomState) :
    (fetchActivities (Except.ok acts) st).1.surface =
      ListSurface.cards (acts.map (fun p => renderActivity p.1 p.2)) ∧
    (fetchActivities (Except.ok acts) st).1.selectOptions =
      st.selectOptions ++ acts.map Prod.fst :=
  ⟨rfl, rfl⟩

/-- Claim C10: a non-2xx response whose body is not valid JSON makes both
handlers take the generic catch branch — "Failed to unregister. Please try
again." / "Failed to sign up. Please try again." with a console log — not
the detail-based message, because the body is parsed before the status
check; fetchActivities is not triggered. -/
theorem C10_nonjson_error_branch (activityName email : String) (now : Nat) (st : DomState) :
    ((unregisterParticipant activityName email
        (Except.ok { ok := false, body := Except.error () }) now st).2.shownMessage =
      some ("Failed to unregister. Please try again.", "error")) ∧
    ((unregisterParticipant activityName email
        (Except.ok { ok := false, body := Except.error () }) now st).2.fetchTriggered = false) ∧
    ((unregisterParticipant activityName email
        (Except.ok { ok := false, body := Except.error () }) now st).2.logged = true) ∧
    ((signupSubmit email activityName
        (Except.ok { ok := false, body := Except.error () }) now st).2.shownMessage =
      some ("Failed to sign up. Please try again.", "error")) ∧
    ((signupSubmit email activityName
        (Except.ok { ok := false, body := Except.error () }) now st).2.fetchTriggered = false) ∧
    ((signupSubmit email activityName
        (Except.ok { ok := false, body := Except.error () }) now st).2.logged = true) :=
  ⟨rfl, rfl, rfl, rfl, rfl, rfl⟩
